import Mathlib

/-
Shallow embedding of the `dribbling-detection-pipeline` repository
(three Python modules: `remove_unwanted_scenes.py`, `format_mp4_dir.py`,
`format_to_soccernet.py`) together with theorems about the embedded code.

Modelling conventions:
- Python floats are modelled by `ℚ` (exact rational arithmetic);
- Python strings are modelled by `String` (with parsing done on `.data`,
  their `List Char` representation);
- the external engines (ffprobe/ffmpeg exit status, YOLO detections, the
  filesystem) are modelled by explicit environments passed to the embedded
  functions, and fallible calls return `Except`/`Option`;
- filesystem paths are modelled as lists of path components.
-/

namespace Dribbling

/-! ### Decimal-digit utilities (model of Python's `str(n)`, `f"\x7bi:06d\x7d"`, `float(...)`) -/

/-- The ASCII character of the decimal digit `d` (for `d < 10`). -/
def digitCharOf (d : ℕ) : Char := Char.ofNat (48 + d)

/-- Big-endian decimal digit characters of `n`, as Python's `str(n)` renders a
nonnegative integer. -/
def natDigits (n : ℕ) : List Char :=
  if n = 0 then ['0'] else ((Nat.digits 10 n).reverse.map digitCharOf)

/-- One step of parsing a decimal numeral left to right. -/
def parseStep (a : ℕ) (c : Char) : ℕ := 10 * a + (c.toNat - 48)

/-- Numeric value of a big-endian string of decimal digit characters. -/
def parseNum (cs : List Char) : ℕ := cs.foldl parseStep 0

/-- Model of Python's fixed-width zero-padded format `f"\x7bn:0wd\x7d"`:
left-pad the decimal digits of `n` with `'0'` up to width `w`. -/
def pyFormat (w n : ℕ) : List Char :=
  List.replicate (w - (natDigits n).length) '0' ++ natDigits n

/-- Model of Python's `int(q)` on a float value: truncation toward zero. -/
def pyInt (q : ℚ) : ℤ := if 0 ≤ q then ⌊q⌋ else ⌈q⌉

/-! ### Quality Gate (`remove_unwanted_scenes.py`) -/

/-- Configuration constant `CONF_THRESHOLD = 0.6` of `remove_unwanted_scenes.py`. -/
def CONF_THRESHOLD : ℚ := 0.6

/-- Configuration constant `MIN_PLAYERS = 4` of `remove_unwanted_scenes.py`. -/
def MIN_PLAYERS : ℕ := 4

/-- Configuration constant `MAX_BBOX_HEIGHT_RATIO = 1/3` of
`remove_unwanted_scenes.py` (renamed to fit this development's conventions). -/
def maxBBoxHeightFrac : ℚ := 1/3

/-- One YOLO detection: axis-aligned box corners and a confidence score, as
consumed by `run_detection` (`boxes.xyxy[i]`, `boxes.conf[i]`). -/
structure Detection where
  x1 : ℚ
  y1 : ℚ
  x2 : ℚ
  y2 : ℚ
  conf : ℚ
deriving DecidableEq, Repr

/-- Embedding of `run_detection` (remove_unwanted_scenes.py, lines 36-50): keep
every raw model detection except those with `conf < CONF_THRESHOLD`, which the
loop skips with `continue`. -/
def run_detection (raw : List Detection) : List Detection :=
  raw.filter (fun d => ! decide (d.conf < CONF_THRESHOLD))

/-- Embedding of `check_criteria` (remove_unwanted_scenes.py, lines 52-66):
`False` when fewer than `MIN_PLAYERS` detections, `False` when some detection's
box height `y2 - y1` is `≥ frame_height * MAX_BBOX_HEIGHT_RATIO`, else `True`. -/
def check_criteria (detections : List Detection) (frame_height : ℚ) : Bool :=
  if detections.length < MIN_PLAYERS then false
  else if detections.any (fun d => decide (frame_height * maxBBoxHeightFrac ≤ d.y2 - d.y1)) then
    false
  else true

/-- The data the external world supplies for one clip's middle frame: the frame
height in pixels and the raw detections the YOLO model returns on that frame. -/
structure FrameData where
  height : ℕ
  raw : List Detection

/-- Environment of the Quality Gate: `middleFrame p` is `none` when
`get_middle_frame` (lines 22-34) fails to open the clip or read its middle
frame, and otherwise carries the frame height and the model's raw detections. -/
structure QGEnv where
  middleFrame : String → Option FrameData

/-- Embedding of `process_video` (remove_unwanted_scenes.py, lines 68-82) acting
on a filesystem modelled as the list of present files. Returns the Python
return value (`True` iff kept) and the filesystem after the call (`os.remove`
deletes the path exactly when the criteria fail on a readable frame). -/
def process_video (env : QGEnv) (fs : List String) (video_path : String) :
    Bool × List String :=
  match env.middleFrame video_path with
  | none => (false, fs)
  | some fr =>
    if check_criteria (run_detection fr.raw) (fr.height : ℚ) then (true, fs)
    else (false, fs.erase video_path)

/-- Per-clip outcome of the Quality Gate, read off the three exit paths of
`process_video`: the read-failure warning, the kept message, or deletion. -/
inductive Verdict where
  | unreadable
  | kept
  | deleted
deriving DecidableEq, Repr

/-- Which of the three `process_video` exit paths a clip takes. -/
def verdict (env : QGEnv) (video_path : String) : Verdict :=
  match env.middleFrame video_path with
  | none => Verdict.unreadable
  | some fr =>
    if check_criteria (run_detection fr.raw) (fr.height : ℚ) then Verdict.kept
    else Verdict.deleted

/-- Extension filter of the Quality Gate's `main`
(`filename.lower().endswith(('.mp4', '.avi', '.mov', '.mkv', '.webm'))`). -/
def hasQGExt (s : String) : Bool :=
  [".mp4", ".avi", ".mov", ".mkv", ".webm"].any
    (fun e => e.data.isSuffixOf (s.data.map Char.toLower))

/-- Embedding of the batch loop of `main` (remove_unwanted_scenes.py, lines
91-103): over the directory listing, skip non-video names, count processed
files, and increment `num_deleted` exactly when `process_video` returns `True`.
Returns `(num_processed, num_deleted, final filesystem)`. -/
def qgMain (env : QGEnv) : List String → List String → ℕ × ℕ × List String
  | [], fs => (0, 0, fs)
  | f :: rest, fs =>
    if hasQGExt f then
      let r := process_video env fs f
      let t := qgMain env rest r.2
      (t.1 + 1, t.2.1 + (if r.1 then 1 else 0), t.2.2)
    else qgMain env rest fs

/-! ### Shared converter data model (`format_mp4_dir.py` / `format_to_soccernet.py`) -/

/-- Model of Python's `str.split(sep)` for a one-character separator. -/
def pySplit (sep : Char) : List Char → List (List Char)
  | [] => [[]]
  | c :: rest =>
    let r := pySplit sep rest
    if c = sep then [] :: r
    else
      match r with
      | [] => [[c]]
      | h :: t => (c :: h) :: t

/-- Model of Python's `str.strip()`: drop whitespace from both ends. -/
def pyStrip (cs : List Char) : List Char :=
  ((cs.dropWhile Char.isWhitespace).reverse.dropWhile Char.isWhitespace).reverse

/-- Model of Python's `float(...)` restricted to the nonnegative-integer
numerals ffprobe emits in `r_frame_rate` (e.g. "30000", "1001"); any other
string is a `ValueError`, modelled as `none`. -/
def parseFloat (cs : List Char) : Option ℚ :=
  if cs = [] then none
  else if cs.all Char.isDigit then some ((parseNum cs : ℚ))
  else none

/-- Model of `glob.glob(os.path.join(folder, '*.jpg'))` membership: a name
matches `*.jpg` when it ends in `.jpg` and does not start with a dot (glob's
`*` never matches a leading dot). -/
def globJpg (name : String) : Bool :=
  (! (name.data.head? == some '.')) && (".jpg".data.isSuffixOf name.data)

/-- The `info` block of `Labels-GameState.json` as both converter variants
build it. -/
structure InfoBlock where
  version : String
  name : String
  im_dir : String
  frame_rate : ℚ
  seq_length : ℕ
  im_ext : String
  clip_start : String
  clip_stop : String
deriving DecidableEq, Repr

/-- One entry of the `images` list of `Labels-GameState.json`. -/
structure ImageRec where
  is_labeled : Bool
  image_id : String
  file_name : String
  height : ℕ
  width : ℕ
deriving DecidableEq, Repr, Inhabited

/-- The whole `Labels-GameState.json` record; `annotations` and `categories`
hold placeholder elements only (the source always leaves them empty). -/
structure LabelsData where
  info : InfoBlock
  images : List ImageRec
  annotations : List Unit
  categories : List Unit
deriving DecidableEq, Repr

/-- Extension filter of both converter `main` loops
(`file_name.lower().endswith(('.mp4', '.webm'))`). -/
def hasConvExt (s : String) : Bool :=
  [".mp4", ".webm"].any (fun e => e.data.isSuffixOf (s.data.map Char.toLower))

/-- Environment of a converter run: per clip, the outcome of the ffprobe call
(`check=True`: a non-zero exit raises, modelled as `.error`), the outcome of
the ffmpeg rasterization, and the resulting directory listing of the clip's
`img1` folder. -/
structure ConvEnv where
  probe : String → Except String (List Char)
  raster : String → Except String Unit
  frames : String → List String

namespace FormatMp4Dir

/-- Command line built by `get_video_fps` (format_mp4_dir.py, lines 16-23). -/
def get_video_fps_cmd (video_path : String) : List String :=
  ["ffprobe", "-v", "error", "-select_streams", "v:0", "-show_entries",
   "stream=r_frame_rate", "-of", "default=noprint_wrappers=1:nokey=1", video_path]

/-- Parsing part of `get_video_fps` (format_mp4_dir.py, lines 25-31): strip the
ffprobe stdout, then either split `top/bottom` on `'/'` and divide as floats,
or convert the bare numeral. `none` models the exceptions (`ValueError` from
`float`, unpacking errors, `ZeroDivisionError`). -/
def get_video_fps_parse (stdout : List Char) : Option ℚ :=
  let raw_rate := pyStrip stdout
  if '/' ∈ raw_rate then
    match pySplit '/' raw_rate with
    | [top, bottom] =>
      match parseFloat top, parseFloat bottom with
      | some a, some b => if b = 0 then none else some (a / b)
      | _, _ => none
    | _ => none
  else parseFloat raw_rate

/-- Command line built by `extract_frames` (format_mp4_dir.py, lines 41-49);
`os.path.join` is modelled as POSIX `/`-joining. -/
def extract_frames_cmd (video_path output_folder : String) : List String :=
  ["ffmpeg", "-i", video_path, "-vf", "scale=1920:1080", "-qscale:v", "2",
   "-start_number", "1", "-vsync", "0", output_folder ++ "/%06d.jpg"]

/-- Embedding of `get_frame_count` (format_mp4_dir.py, lines 54-58) over a
directory listing. -/
def get_frame_count (listing : List String) : ℕ :=
  (listing.filter globJpg).length

/-- The `duration_ms` computation of `create_labels_json` (format_mp4_dir.py,
line 69): `int((total_frames / frame_rate) * 1000) if frame_rate > 0 else 0`. -/
def duration_ms (total_frames : ℕ) (frame_rate : ℚ) : ℤ :=
  if 0 < frame_rate then pyInt (((total_frames : ℚ) / frame_rate) * 1000) else 0

/-- Embedding of `create_labels_json` (format_mp4_dir.py, lines 61-108) up to
the file write: the record it serializes. -/
def create_labels_json (video_name : String) (frame_rate : ℚ) (total_frames : ℕ) :
    LabelsData :=
  { info :=
      { version := "1.3"
        name := video_name
        im_dir := "img1"
        frame_rate := frame_rate
        seq_length := total_frames
        im_ext := ".jpg"
        clip_start := "0"
        clip_stop := toString (duration_ms total_frames frame_rate) }
    images := (List.range' 1 total_frames).map (fun i =>
      { is_labeled := false
        image_id := String.mk (pyFormat 9 i)
        file_name := String.mk (pyFormat 6 i) ++ ".jpg"
        height := 1080
        width := 1920 })
    annotations := []
    categories := [] }

/-- Byte-level rendering of one `images` entry, modelling
`json.dump(..., indent=4)` at nesting depth 2. -/
def renderImage (img : ImageRec) : String :=
  "        \x7b\n"
  ++ "            \"is_labeled\": " ++ (if img.is_labeled then "true" else "false") ++ ",\n"
  ++ "            \"image_id\": \"" ++ img.image_id ++ "\",\n"
  ++ "            \"file_name\": \"" ++ img.file_name ++ "\",\n"
  ++ "            \"height\": " ++ toString img.height ++ ",\n"
  ++ "            \"width\": " ++ toString img.width ++ "\n"
  ++ "        \x7d"

/-- Byte-level rendering of the whole record, modelling
`json.dump(data, f, indent=4)` (numbers rendered through `toString`). -/
def renderLabels (d : LabelsData) : String :=
  "\x7b\n"
  ++ "    \"info\": \x7b\n"
  ++ "        \"version\": \"" ++ d.info.version ++ "\",\n"
  ++ "        \"name\": \"" ++ d.info.name ++ "\",\n"
  ++ "        \"im_dir\": \"" ++ d.info.im_dir ++ "\",\n"
  ++ "        \"frame_rate\": " ++ toString d.info.frame_rate ++ ",\n"
  ++ "        \"seq_length\": " ++ toString d.info.seq_length ++ ",\n"
  ++ "        \"im_ext\": \"" ++ d.info.im_ext ++ "\",\n"
  ++ "        \"clip_start\": \"" ++ d.info.clip_start ++ "\",\n"
  ++ "        \"clip_stop\": \"" ++ d.info.clip_stop ++ "\"\n"
  ++ "    \x7d,\n"
  ++ "    \"images\": "
  ++ (if d.images.isEmpty then "[]"
      else "[\n" ++ String.intercalate ",\n" (d.images.map renderImage) ++ "\n    ]")
  ++ ",\n"
  ++ "    \"annotations\": [],\n"
  ++ "    \"categories\": []\n"
  ++ "\x7d"

/-- Sanitization of `main` (format_mp4_dir.py, lines 126-128):
`base_name.replace(' ', '-').lower()` (ASCII lower-casing). -/
def sanitize (base_name : String) : String :=
  String.mk ((base_name.data.map (fun c => if c = ' ' then '-' else c)).map Char.toLower)

/-- `new_folder_path` of `main` (format_mp4_dir.py, lines 132-133): the
timestamped per-clip folder directly under the output directory. -/
def new_folder_path (output_dir : List String) (base_name_sanitized timestamp : String) :
    List String :=
  output_dir ++ [base_name_sanitized ++ "-" ++ timestamp]

/-- `train_dir` of `main` (format_mp4_dir.py, line 134). -/
def train_dir (output_dir : List String) (base_name_sanitized timestamp : String) :
    List String :=
  new_folder_path output_dir base_name_sanitized timestamp ++ ["train"]

/-- `video_dir` of `main` (format_mp4_dir.py, line 135): a fixed `video1` slot
under `train`. -/
def video_dir (output_dir : List String) (base_name_sanitized timestamp : String) :
    List String :=
  train_dir output_dir base_name_sanitized timestamp ++ ["video1"]

/-- `img_dir` of `main` (format_mp4_dir.py, line 136). -/
def img_dir (output_dir : List String) (base_name_sanitized timestamp : String) :
    List String :=
  video_dir output_dir base_name_sanitized timestamp ++ ["img1"]

/-- `json_path` of `main` (format_mp4_dir.py, line 159): the label file inside
`video1`, a sibling of `img1`. -/
def json_path (output_dir : List String) (base_name_sanitized timestamp : String) :
    List String :=
  video_dir output_dir base_name_sanitized timestamp ++ ["Labels-GameState.json"]

/-- Steps 1-4 of the per-clip body of `main` (format_mp4_dir.py, lines 145-165):
probe the rate, parse it, rasterize, count frames, build the labels record.
Any raised exception is an `.error` value. -/
def processClip (env : ConvEnv) (file_name : String) : Except String (ℚ × ℕ) :=
  match env.probe file_name with
  | .error e => .error e
  | .ok stdout =>
    match get_video_fps_parse stdout with
    | none => .error ("ValueError: could not convert ffprobe output for " ++ file_name)
    | some fps =>
      match env.raster file_name with
      | .error e => .error e
      | .ok _ => .ok (fps, get_frame_count (env.frames file_name))

/-- The batch loop of `main` (format_mp4_dir.py, lines 124-165) as written: no
`try`/`except` surrounds the per-clip body, so the first exception propagates
and ends the loop. -/
def mainLoopA (env : ConvEnv) : List String → Except String (List (String × ℚ × ℕ))
  | [] => .ok []
  | f :: rest =>
    if hasConvExt f then
      match processClip env f with
      | .error e => .error e
      | .ok r =>
        match mainLoopA env rest with
        | .error e => .error e
        | .ok rs => .ok ((f, r) :: rs)
    else mainLoopA env rest

/-- The clips whose per-clip processing is started before the loop of
format_mp4_dir.py ends (normally or by a propagating exception). -/
def attemptedA (env : ConvEnv) : List String → List String
  | [] => []
  | f :: rest =>
    if hasConvExt f then
      match processClip env f with
      | .error _ => [f]
      | .ok _ => f :: attemptedA env rest
    else attemptedA env rest

end FormatMp4Dir

namespace FormatToSoccernet

/-- Command line built by `get_video_fps` (format_to_soccernet.py, lines 16-23). -/
def get_video_fps_cmd (video_path : String) : List String :=
  ["ffprobe", "-v", "error", "-select_streams", "v:0", "-show_entries",
   "stream=r_frame_rate", "-of", "default=noprint_wrappers=1:nokey=1", video_path]

/-- Parsing part of `get_video_fps` (format_to_soccernet.py, lines 25-31):
identical logic to the other variant, with `numerator`/`denominator` names. -/
def get_video_fps_parse (stdout : List Char) : Option ℚ :=
  let raw_rate := pyStrip stdout
  if '/' ∈ raw_rate then
    match pySplit '/' raw_rate with
    | [numerator, denominator] =>
      match parseFloat numerator, parseFloat denominator with
      | some a, some b => if b = 0 then none else some (a / b)
      | _, _ => none
    | _ => none
  else parseFloat raw_rate

/-- Command line built by `extract_frames` (format_to_soccernet.py, lines 40-48). -/
def extract_frames_cmd (video_path output_folder : String) : List String :=
  ["ffmpeg", "-i", video_path, "-vf", "scale=1920:1080", "-qscale:v", "2",
   "-start_number", "1", "-vsync", "0", output_folder ++ "/%06d.jpg"]

/-- Embedding of `get_frame_count` (format_to_soccernet.py, lines 51-55). -/
def get_frame_count (listing : List String) : ℕ :=
  (listing.filter globJpg).length

/-- The `duration_ms` computation of `create_labels_json`
(format_to_soccernet.py, line 65). -/
def duration_ms (total_frames : ℕ) (frame_rate : ℚ) : ℤ :=
  if 0 < frame_rate then pyInt (((total_frames : ℚ) / frame_rate) * 1000) else 0

/-- Embedding of `create_labels_json` (format_to_soccernet.py, lines 57-102) up
to the file write. -/
def create_labels_json (video_name : String) (frame_rate : ℚ) (total_frames : ℕ) :
    LabelsData :=
  { info :=
      { version := "1.3"
        name := video_name
        im_dir := "img1"
        frame_rate := frame_rate
        seq_length := total_frames
        im_ext := ".jpg"
        clip_start := "0"
        clip_stop := toString (duration_ms total_frames frame_rate) }
    images := (List.range' 1 total_frames).map (fun i =>
      { is_labeled := false
        image_id := String.mk (pyFormat 9 i)
        file_name := String.mk (pyFormat 6 i) ++ ".jpg"
        height := 1080
        width := 1920 })
    annotations := []
    categories := [] }

/-- Steps 1-4 of the per-clip body of `main` (format_to_soccernet.py, lines
152-172); exceptions are `.error` values, as in the other variant. -/
def processClip (env : ConvEnv) (file_name : String) : Except String (ℚ × ℕ) :=
  match env.probe file_name with
  | .error e => .error e
  | .ok stdout =>
    match get_video_fps_parse stdout with
    | none => .error ("ValueError: could not convert ffprobe output for " ++ file_name)
    | some fps =>
      match env.raster file_name with
      | .error e => .error e
      | .ok _ => .ok (fps, get_frame_count (env.frames file_name))

/-- The batch loop of `main` (format_to_soccernet.py, lines 136-186) as
written: no `try`/`except`, the first exception propagates; on success the
clip is also moved to the processed folder (second component collects the
moved originals). -/
def mainLoopB (env : ConvEnv) :
    List String → Except String (List (String × ℚ × ℕ) × List String)
  | [] => .ok ([], [])
  | f :: rest =>
    if hasConvExt f then
      match processClip env f with
      | .error e => .error e
      | .ok r =>
        match mainLoopB env rest with
        | .error e => .error e
        | .ok rs => .ok ((f, r) :: rs.1, f :: rs.2)
    else mainLoopB env rest

end FormatToSoccernet

/-! ### Concrete instances and spec-side reading functions used in the theorems -/

/-- Numeric value of an image's `image_id` field. -/
def idNum (img : ImageRec) : ℕ := parseNum img.image_id.data

/-- Numeric value of the digit prefix of an image's `file_name` field. -/
def fileNameNum (img : ImageRec) : ℕ :=
  parseNum (img.file_name.data.takeWhile Char.isDigit)

/-- A Quality-Gate environment in which no clip can be opened or read. -/
def qgEnvUnreadable : QGEnv := ⟨fun _ => none⟩

/-- A well-detected player box of height 100 at horizontal offset `k`,
confidence 0.9. -/
def detGood (k : ℚ) : Detection := ⟨k, 0, k + 1, 100, 9/10⟩

/-- A detection with confidence exactly 0.59, below the 0.6 threshold. -/
def lowConfDet : Detection := ⟨0, 0, 1, 50, 59/100⟩

/-- A sample raw model output: four confident small players plus one
detection at confidence 0.59. -/
def rawSample : List Detection :=
  [detGood 0, detGood 10, detGood 20, detGood 30, lowConfDet]

/-- A Quality-Gate environment where every clip's middle frame has height 900
and produces `rawSample`. -/
def qgEnvSample : QGEnv := ⟨fun _ => some ⟨900, rawSample⟩⟩

/-- A converter environment whose ffprobe call fails (non-zero exit) on
`a.mp4` and succeeds with rate `25/1` on every other clip. -/
def envBad : ConvEnv :=
  { probe := fun f =>
      if f = "a.mp4" then .error "ffprobe exited with non-zero status"
      else .ok ("25/1".data)
    raster := fun _ => .ok ()
    frames := fun _ => ["000001.jpg", "000002.jpg"] }

/-! ### Helper lemmas about the Quality Gate -/

/-- Boolean/propositional reading of `check_criteria`. -/
theorem check_criteria_iff (dets : List Detection) (h : ℚ) :
    check_criteria dets h = true ↔
      MIN_PLAYERS ≤ dets.length ∧
        ∀ d ∈ dets, d.y2 - d.y1 < h * maxBBoxHeightFrac := by
  unfold check_criteria
  split_ifs with h1 h2
  · simp only [false_iff, not_and]
    intro hle
    omega
  · simp only [false_iff, not_and]
    intro _ hall
    obtain ⟨d, hd, hge⟩ := List.any_eq_true.mp h2
    exact absurd (hall d hd) (not_lt.mpr (of_decide_eq_true hge))
  · simp only [true_iff]
    refine ⟨not_lt.mp h1, fun d hd => ?_⟩
    by_contra hge
    exact h2 (List.any_eq_true.mpr ⟨d, hd, decide_eq_true (not_lt.mp hge)⟩)

/-- `run_detection` keeps exactly the detections at or above the threshold. -/
theorem run_detection_eq (raw : List Detection) :
    run_detection raw = raw.filter (fun d => decide (CONF_THRESHOLD ≤ d.conf)) := by
  unfold run_detection
  apply List.filter_congr
  intro d _
  by_cases hd : d.conf < CONF_THRESHOLD
  · simp [hd, not_le.mpr hd]
  · simp [hd, not_lt.mp hd]

/-- Membership characterization of `run_detection`. -/
theorem mem_run_detection (raw : List Detection) (d : Detection) :
    d ∈ run_detection raw ↔ d ∈ raw ∧ CONF_THRESHOLD ≤ d.conf := by
  rw [run_detection_eq, List.mem_filter]
  simp

/-! ### Helper lemmas about decimal numerals and parsing -/

/-- The digit characters have the expected code points. -/
theorem digitCharOf_toNat (d : ℕ) (hd : d < 10) : (digitCharOf d).toNat = 48 + d := by
  interval_cases d <;> decide

/-- The digit characters satisfy `Char.isDigit`. -/
theorem isDigit_digitCharOf (d : ℕ) (hd : d < 10) :
    (digitCharOf d).isDigit = true := by
  interval_cases d <;> decide

/-- Folding `parseStep` over a big-endian digit-character rendering computes
the positional value. -/
theorem foldl_parseStep_digits (l : List ℕ) (hl : ∀ d ∈ l, d < 10) (a : ℕ) :
    List.foldl parseStep a ((l.map digitCharOf).reverse) =
      a * 10 ^ l.length + Nat.ofDigits 10 l := by
  induction l generalizing a with
  | nil => simp
  | cons d t ih =>
    rw [List.map_cons, List.reverse_cons, List.foldl_append,
      ih (fun x hx => hl x (List.mem_cons_of_mem _ hx))]
    have hd := hl d (List.mem_cons_self d t)
    simp only [List.foldl_cons, List.foldl_nil, parseStep,
      digitCharOf_toNat d hd, Nat.ofDigits_cons, List.length_cons]
    have h48 : 48 + d - 48 = d := by omega
    rw [h48]
    ring

/-- Parsing inverts rendering: `parseNum (natDigits n) = n`. -/
theorem parseNum_natDigits (n : ℕ) : parseNum (natDigits n) = n := by
  unfold parseNum natDigits
  split_ifs with h
  · subst h; rfl
  · rw [List.map_reverse,
      foldl_parseStep_digits _ (fun d hd => Nat.digits_lt_base (by norm_num) hd) 0]
    simp [Nat.ofDigits_digits]

/-- Accumulating over leading zero characters keeps the accumulator at 0. -/
theorem foldl_parseStep_replicate_zero (k : ℕ) :
    List.foldl parseStep 0 (List.replicate k '0') = 0 := by
  induction k with
  | zero => rfl
  | succ k ih =>
    rw [List.replicate_succ, List.foldl_cons]
    have h : parseStep 0 '0' = 0 := rfl
    rw [h, ih]

/-- Leading-zero padding does not change the parsed value. -/
theorem parseNum_replicate_append (k : ℕ) (cs : List Char) :
    parseNum (List.replicate k '0' ++ cs) = parseNum cs := by
  unfold parseNum
  rw [List.foldl_append, foldl_parseStep_replicate_zero]

/-- The zero-padded rendering of `n` parses back to `n`, for every width. -/
theorem parseNum_pyFormat (w n : ℕ) : parseNum (pyFormat w n) = n := by
  rw [pyFormat, parseNum_replicate_append, parseNum_natDigits]

/-- Every character of a zero-padded numeral is a decimal digit. -/
theorem pyFormat_all_digits (w n : ℕ) :
    ∀ c ∈ pyFormat w n, c.isDigit = true := by
  intro c hc
  rw [pyFormat] at hc
  rcases List.mem_append.mp hc with h | h
  · rw [List.eq_of_mem_replicate h]; decide
  · rw [natDigits] at h
    split_ifs at h with h0
    · simp only [List.mem_singleton] at h
      subst h; decide
    · obtain ⟨d, hd, rfl⟩ := List.mem_map.mp h
      exact isDigit_digitCharOf d
        (Nat.digits_lt_base (by norm_num) (List.mem_reverse.mp hd))

/-- `takeWhile` over a satisfying block followed by a failing character stops
exactly at the block. -/
theorem takeWhile_append_stop (p : Char → Bool) (l1 : List Char) (c0 : Char)
    (l2 : List Char) (h1 : ∀ c ∈ l1, p c = true) (h0 : p c0 = false) :
    (l1 ++ c0 :: l2).takeWhile p = l1 := by
  induction l1 with
  | nil =>
    rw [List.nil_append, List.takeWhile_cons]
    simp [h0]
  | cons a t ih =>
    rw [List.cons_append, List.takeWhile_cons,
      if_pos (h1 a (List.mem_cons_self a t)),
      ih (fun c hc => h1 c (List.mem_cons_of_mem _ hc))]

/-- A digit character is not `'/'`. -/
theorem digit_not_slash {c : Char} (h : c.isDigit = true) : ¬ c = '/' := by
  rintro rfl
  exact absurd h (by decide)

/-- A digit character is not whitespace. -/
theorem digit_not_ws {c : Char} (h : c.isDigit = true) :
    c.isWhitespace = false := by
  by_contra hw
  rw [Bool.not_eq_false] at hw
  simp only [Char.isWhitespace, Bool.or_eq_true, decide_eq_true_eq] at hw
  rcases hw with ((rfl | rfl) | rfl) | rfl <;> exact absurd h (by decide)

/-- `dropWhile` is the identity when no element satisfies the predicate. -/
theorem dropWhile_eq_self_of_not (p : Char → Bool) (l : List Char)
    (h : ∀ c ∈ l, p c = false) : l.dropWhile p = l := by
  cases l with
  | nil => rfl
  | cons a t =>
    rw [List.dropWhile_cons]
    simp [h a (List.mem_cons_self a t)]

/-- `pyStrip` is the identity on whitespace-free strings. -/
theorem pyStrip_eq_self (l : List Char) (h : ∀ c ∈ l, c.isWhitespace = false) :
    pyStrip l = l := by
  unfold pyStrip
  rw [dropWhile_eq_self_of_not _ _ h,
    dropWhile_eq_self_of_not _ _ (fun c hc => h c (List.mem_reverse.mp hc)),
    List.reverse_reverse]

/-- `pySplit` on a separator-free string yields that one piece. -/
theorem pySplit_no_sep (sep : Char) (b : List Char) (hb : ∀ c ∈ b, ¬ c = sep) :
    pySplit sep b = [b] := by
  induction b with
  | nil => rfl
  | cons c t ih =>
    simp only [pySplit, if_neg (hb c (List.mem_cons_self c t)),
      ih (fun x hx => hb x (List.mem_cons_of_mem _ hx))]

/-- `pySplit` splits off the piece before the first separator. -/
theorem pySplit_append (sep : Char) (a b : List Char) (ha : ∀ c ∈ a, ¬ c = sep) :
    pySplit sep (a ++ sep :: b) = a :: pySplit sep b := by
  induction a with
  | nil => simp [pySplit]
  | cons c t ih =>
    simp only [List.cons_append, pySplit, List.append_eq,
      if_neg (ha c (List.mem_cons_self c t)),
      ih (fun x hx => ha x (List.mem_cons_of_mem _ hx))]

/-- `parseFloat` succeeds on nonempty all-digit strings. -/
theorem parseFloat_digits (cs : List Char) (hne : cs ≠ [])
    (h : ∀ c ∈ cs, c.isDigit = true) :
    parseFloat cs = some ((parseNum cs : ℚ)) := by
  rw [parseFloat, if_neg hne, if_pos (List.all_eq_true.mpr h)]

/-! ### Claim theorems -/

/-- Claim C1: for every frame the Quality Gate evaluates, the clip is kept iff
at least 4 detections qualify (confidence ≥ 0.6) and no qualifying detection's
box height `y2 - y1` is ≥ 1/3 of the frame's pixel height; a detection with
confidence 0.59 is excluded entirely by `run_detection`. -/
theorem c1_quality_gate_accept_iff (env : QGEnv) (p : String) (fr : FrameData)
    (hfr : env.middleFrame p = some fr) :
    (verdict env p = Verdict.kept ↔
      4 ≤ (fr.raw.filter (fun d => decide ((6 : ℚ)/10 ≤ d.conf))).length ∧
        ∀ d ∈ fr.raw, (6 : ℚ)/10 ≤ d.conf →
          d.y2 - d.y1 < (fr.height : ℚ) / 3) ∧
    ∀ d ∈ fr.raw, d.conf = 59/100 → d ∉ run_detection fr.raw := by
  have hthr : CONF_THRESHOLD = (6 : ℚ)/10 := by norm_num [CONF_THRESHOLD]
  have hfrac : (fr.height : ℚ) * maxBBoxHeightFrac = (fr.height : ℚ) / 3 := by
    rw [maxBBoxHeightFrac]; ring
  constructor
  · unfold verdict
    rw [hfr]
    have hkept : (if check_criteria (run_detection fr.raw) (fr.height : ℚ)
        then Verdict.kept else Verdict.deleted) = Verdict.kept ↔
        check_criteria (run_detection fr.raw) (fr.height : ℚ) = true := by
      split_ifs with hc <;> simp [hc]
    rw [hkept, check_criteria_iff, run_detection_eq, hthr, hfrac]
    constructor
    · rintro ⟨hlen, hall⟩
      refine ⟨hlen, fun d hd hconf => ?_⟩
      exact hall d (List.mem_filter.mpr ⟨hd, decide_eq_true hconf⟩)
    · rintro ⟨hlen, hall⟩
      refine ⟨hlen, fun d hd => ?_⟩
      obtain ⟨hmem, hconf⟩ := List.mem_filter.mp hd
      exact hall d hmem (of_decide_eq_true hconf)
  · intro d _ hconf hmem
    have := (mem_run_detection fr.raw d).mp hmem
    rw [hconf, CONF_THRESHOLD] at this
    norm_num at this

/-- Claim C1 witness: on a concrete frame of height 900 with four confident
small players and one detection at confidence 0.59, the clip is kept and the
0.59 detection is filtered out. -/
theorem c1_quality_gate_accept_iff_witness :
    verdict qgEnvSample "clip.mp4" = Verdict.kept ∧
      lowConfDet ∉ run_detection rawSample := by
  have h := c1_quality_gate_accept_iff qgEnvSample "clip.mp4" ⟨900, rawSample⟩ rfl
  refine ⟨h.1.mpr ⟨?_, ?_⟩, h.2 lowConfDet (by simp [rawSample]) rfl⟩
  · norm_num [rawSample, List.filter_cons, detGood, lowConfDet]
  · norm_num [rawSample, List.forall_mem_cons, detGood, lowConfDet]

/-- Claim C4: a clip whose middle frame cannot be obtained gets the
`Unreadable` verdict, `process_video` leaves the filesystem untouched, and the
source file is still present afterward. -/
theorem c4_unreadable_never_deleted (env : QGEnv) (fs : List String) (p : String)
    (h : env.middleFrame p = none) :
    verdict env p = Verdict.unreadable ∧
      process_video env fs p = (false, fs) ∧
      (p ∈ fs → p ∈ (process_video env fs p).2) := by
  unfold verdict process_video
  rw [h]
  exact ⟨rfl, rfl, fun hp => hp⟩

/-- Claim C4 witness: in the all-unreadable environment, `v.mp4` is judged
`Unreadable` and survives processing. -/
theorem c4_unreadable_never_deleted_witness :
    verdict qgEnvUnreadable "v.mp4" = Verdict.unreadable ∧
      process_video qgEnvUnreadable ["v.mp4"] "v.mp4" = (false, ["v.mp4"]) ∧
      ("v.mp4" ∈ ["v.mp4"] →
        "v.mp4" ∈ (process_video qgEnvUnreadable ["v.mp4"] "v.mp4").2) :=
  c4_unreadable_never_deleted qgEnvUnreadable ["v.mp4"] "v.mp4" rfl

/-- Claim C10: `process_video` returns `True` exactly on kept videos, and the
`num_deleted` counter the batch loop reports equals the number of videos whose
verdict is `Kept` (deleted or unreadable videos are not counted). -/
theorem c10_deleted_counter_counts_kept :
    (∀ (env : QGEnv) (fs : List String) (p : String),
      ((process_video env fs p).1 = true ↔ verdict env p = Verdict.kept)) ∧
    ∀ (env : QGEnv) (files fs : List String),
      (qgMain env files fs).2.1 =
        (files.filter
          (fun f => hasQGExt f && decide (verdict env f = Verdict.kept))).length := by
  have hpv : ∀ (env : QGEnv) (fs : List String) (p : String),
      ((process_video env fs p).1 = true ↔ verdict env p = Verdict.kept) := by
    intro env fs p
    unfold process_video verdict
    cases hm : env.middleFrame p with
    | none => simp
    | some fr =>
      dsimp only
      split_ifs with hc <;> simp
  refine ⟨hpv, fun env files => ?_⟩
  induction files with
  | nil => intro fs; rfl
  | cons f rest ih =>
    intro fs
    by_cases he : hasQGExt f
    · rw [qgMain, if_pos he, List.filter_cons]
      by_cases hv : verdict env f = Verdict.kept
      · have hr : (process_video env fs f).1 = true := (hpv env fs f).mpr hv
        simp [he, hv, hr, ih]
      · have hr : (process_video env fs f).1 ≠ true := fun h => hv ((hpv env fs f).mp h)
        simp [he, hv, Bool.of_not_eq_true hr, ih]
    · rw [qgMain, if_neg he, List.filter_cons]
      simp [he, ih]

/-- Claim C2 counterexample: at frame count 5 and rate 3, the stored
`clip_stop` is `"1666"` (truncation via Python's `int`), while nearest-integer
rounding of `5/3*1000` gives 1667 — so `clip_stop` is not the string of
`round(F/R*1000)`. -/
theorem c2_clip_stop_round_counterexample :
    (FormatMp4Dir.create_labels_json "clip" 3 5).info.clip_stop ≠
      toString (round (((5 : ℚ) / 3) * 1000)) := by
  have h0 : FormatMp4Dir.duration_ms 5 3 = 1666 := by
    rw [FormatMp4Dir.duration_ms, if_pos (by norm_num : (0:ℚ) < 3), pyInt,
      if_pos (by push_cast; norm_num : (0:ℚ) ≤ (((5:ℕ) : ℚ) / 3) * 1000)]
    rw [show (((5:ℕ) : ℚ) / 3) * 1000 = 5000/3 by push_cast; ring]
    rw [Int.floor_eq_iff]
    norm_num
  have h1 : (FormatMp4Dir.create_labels_json "clip" 3 5).info.clip_stop =
      toString (1666 : ℤ) := by
    show toString (FormatMp4Dir.duration_ms 5 3) = toString (1666 : ℤ)
    rw [h0]
  have h2 : round (((5 : ℚ) / 3) * 1000) = 1667 := by
    rw [show ((5 : ℚ) / 3) * 1000 = 5000/3 by ring, round_eq,
      Int.floor_eq_iff]
    norm_num
  rw [h1, h2]
  decide

/-- Claim C2 as amended: for `R > 0` the Metadata Builder stores `clip_stop`
equal to the string of `int(F/R*1000)` — truncation toward zero (`pyInt`), not
nearest-integer rounding — and for `R = 0` it stores `"0"` regardless of `F`. -/
theorem c2_clip_stop_truncates (name : String) (F : ℕ) (R : ℚ) :
    (0 < R →
      (FormatMp4Dir.create_labels_json name R F).info.clip_stop =
        toString (pyInt (((F : ℚ) / R) * 1000))) ∧
    (R = 0 →
      (FormatMp4Dir.create_labels_json name R F).info.clip_stop = "0") := by
  constructor
  · intro hR
    show toString (FormatMp4Dir.duration_ms F R) = _
    rw [FormatMp4Dir.duration_ms, if_pos hR]
  · rintro rfl
    show toString (FormatMp4Dir.duration_ms F 0) = "0"
    rw [FormatMp4Dir.duration_ms, if_neg (lt_irrefl 0)]
    rfl

/-- Claim C2 witness: the truncation equation instantiated at `(F, R) = (5, 3)`
and the zero-rate case at `(F, R) = (7, 0)`. -/
theorem c2_clip_stop_truncates_witness :
    (FormatMp4Dir.create_labels_json "w" 3 5).info.clip_stop =
        toString (pyInt ((((5 : ℕ) : ℚ) / 3) * 1000)) ∧
      (FormatMp4Dir.create_labels_json "w" 0 7).info.clip_stop = "0" :=
  ⟨(c2_clip_stop_truncates "w" 5 3).1 (by norm_num),
   (c2_clip_stop_truncates "w" 7 0).2 rfl⟩

/-- Claim C3 counterexample: with `a.mp4` failing its rate probe and `b.mp4`
perfectly processable, the batch `[a.mp4, b.mp4]` aborts with the propagated
error and only `a.mp4` is ever attempted — `b.mp4` is not processed, even
though on its own (listing order `[b.mp4, a.mp4]`) both clips are attempted. -/
theorem c3_batch_abort_counterexample :
    FormatMp4Dir.mainLoopA envBad ["a.mp4", "b.mp4"] =
        Except.error "ffprobe exited with non-zero status" ∧
      FormatMp4Dir.attemptedA envBad ["a.mp4", "b.mp4"] = ["a.mp4"] ∧
      FormatMp4Dir.attemptedA envBad ["b.mp4", "a.mp4"] = ["b.mp4", "a.mp4"] :=
  ⟨rfl, rfl, rfl⟩

/-- Claim C3 as amended: in both converter variants the per-clip body runs with
no exception handler, so a failing rate probe or rasterization raises out of
the batch loop: the loop returns that error and no clip after the failing one
is attempted. -/
theorem c3_per_clip_error_aborts_batch (env : ConvEnv) (c : String)
    (rest : List String) (e : String) (hext : hasConvExt c = true)
    (herr : FormatMp4Dir.processClip env c = Except.error e) :
    FormatMp4Dir.mainLoopA env (c :: rest) = Except.error e ∧
      FormatMp4Dir.attemptedA env (c :: rest) = [c] ∧
      (FormatToSoccernet.processClip env c = Except.error e →
        FormatToSoccernet.mainLoopB env (c :: rest) = Except.error e) := by
  refine ⟨?_, ?_, fun herrB => ?_⟩
  · rw [FormatMp4Dir.mainLoopA, if_pos hext, herr]
  · rw [FormatMp4Dir.attemptedA, if_pos hext, herr]
  · rw [FormatToSoccernet.mainLoopB, if_pos hext, herrB]

/-- Claim C3 amended-claim witness: the abort behavior instantiated on the
concrete failing environment. -/
theorem c3_per_clip_error_aborts_batch_witness :
    FormatMp4Dir.mainLoopA envBad ["a.mp4", "c.webm"] =
        Except.error "ffprobe exited with non-zero status" ∧
      FormatMp4Dir.attemptedA envBad ["a.mp4", "c.webm"] = ["a.mp4"] ∧
      (FormatToSoccernet.processClip envBad "a.mp4" =
          Except.error "ffprobe exited with non-zero status" →
        FormatToSoccernet.mainLoopB envBad ["a.mp4", "c.webm"] =
          Except.error "ffprobe exited with non-zero status") :=
  c3_per_clip_error_aborts_batch envBad "a.mp4" ["c.webm"]
    "ffprobe exited with non-zero status" rfl rfl

/-- Claim C6: the Metadata Builder is deterministic — two invocations with
identical `(name, rate, count)` inputs produce byte-identical serialized
output. -/
theorem c6_metadata_builder_deterministic (n₁ n₂ : String) (r₁ r₂ : ℚ)
    (c₁ c₂ : ℕ) (hn : n₁ = n₂) (hr : r₁ = r₂) (hc : c₁ = c₂) :
    FormatMp4Dir.renderLabels (FormatMp4Dir.create_labels_json n₁ r₁ c₁) =
      FormatMp4Dir.renderLabels (FormatMp4Dir.create_labels_json n₂ r₂ c₂) := by
  subst hn; subst hr; subst hc; rfl

/-- Claim C6 witness: determinism instantiated at `("v", 25, 2)`. -/
theorem c6_metadata_builder_deterministic_witness :
    FormatMp4Dir.renderLabels (FormatMp4Dir.create_labels_json "v" 25 2) =
      FormatMp4Dir.renderLabels (FormatMp4Dir.create_labels_json "v" 25 2) :=
  c6_metadata_builder_deterministic "v" "v" 25 25 2 2 rfl rfl rfl

/-- Claim C7 counterexample: in single-clip mode the image directory for source
`My Clip` is `out/my-clip-20240101-120000/train/video1/img1` — the timestamped
slot sits above `train`, not under it, so the layout is not
`run-root/train/{san}-{ts}/img1` as claimed. -/
theorem c7_layout_counterexample :
    FormatMp4Dir.img_dir ["out"] (FormatMp4Dir.sanitize "My Clip")
        "20240101-120000" ≠
      ["out", "train",
        FormatMp4Dir.sanitize "My Clip" ++ "-" ++ "20240101-120000", "img1"] := by
  decide

/-- Claim C7 as amended: in single-clip mode each clip's output is laid out as
output-dir → `{sanitized-base-name}-{timestamp}` → `train` → `video1` → `img1`:
the timestamped directory is the per-clip root above `train`, the slot under
`train` is always named `video1`, and the label file is written inside `video1`
as a sibling of `img1`. -/
theorem c7_layout_actual (out : List String) (base_name_sanitized ts : String) :
    FormatMp4Dir.img_dir out base_name_sanitized ts =
        out ++ [base_name_sanitized ++ "-" ++ ts, "train", "video1", "img1"] ∧
      FormatMp4Dir.json_path out base_name_sanitized ts =
        out ++ [base_name_sanitized ++ "-" ++ ts, "train", "video1",
          "Labels-GameState.json"] := by
  constructor <;>
    simp [FormatMp4Dir.img_dir, FormatMp4Dir.json_path, FormatMp4Dir.video_dir,
      FormatMp4Dir.train_dir, FormatMp4Dir.new_folder_path]

/-- Claim C9: the per-clip core functions of the two converter variants are
extensionally equal — same ffprobe command, same rate parsing, same ffmpeg
command, same frame counting, same labels record. -/
theorem c9_shared_per_clip_core :
    (∀ v, FormatMp4Dir.get_video_fps_cmd v = FormatToSoccernet.get_video_fps_cmd v) ∧
      (∀ stdout, FormatMp4Dir.get_video_fps_parse stdout =
        FormatToSoccernet.get_video_fps_parse stdout) ∧
      (∀ v o, FormatMp4Dir.extract_frames_cmd v o =
        FormatToSoccernet.extract_frames_cmd v o) ∧
      (∀ l, FormatMp4Dir.get_frame_count l = FormatToSoccernet.get_frame_count l) ∧
      (∀ n r c, FormatMp4Dir.create_labels_json n r c =
        FormatToSoccernet.create_labels_json n r c) :=
  ⟨fun _ => rfl, fun _ => rfl, fun _ _ => rfl, fun _ => rfl, fun _ _ _ => rfl⟩

/-- The images list of the Metadata Builder, unfolded. -/
theorem images_eq (name : String) (rate : ℚ) (N : ℕ) :
    (FormatMp4Dir.create_labels_json name rate N).images =
      (List.range' 1 N).map (fun i =>
        { is_labeled := false
          image_id := String.mk (pyFormat 9 i)
          file_name := String.mk (pyFormat 6 i) ++ ".jpg"
          height := 1080
          width := 1920 }) := rfl

/-- The `image_id` of the `i`-th generated image parses back to `i`. -/
theorem idNum_mk (i : ℕ) :
    idNum { is_labeled := false, image_id := String.mk (pyFormat 9 i),
            file_name := String.mk (pyFormat 6 i) ++ ".jpg",
            height := 1080, width := 1920 } = i := by
  show parseNum (String.mk (pyFormat 9 i)).data = i
  have hm : (String.mk (pyFormat 9 i)).data = pyFormat 9 i := rfl
  rw [hm, parseNum_pyFormat]

/-- The digit prefix of the `i`-th generated file name parses back to `i`. -/
theorem fileNameNum_mk (i : ℕ) :
    fileNameNum { is_labeled := false, image_id := String.mk (pyFormat 9 i),
                  file_name := String.mk (pyFormat 6 i) ++ ".jpg",
                  height := 1080, width := 1920 } = i := by
  show parseNum (((String.mk (pyFormat 6 i) ++ ".jpg").data).takeWhile Char.isDigit) = i
  rw [String.data_append]
  have hm : (String.mk (pyFormat 6 i)).data = pyFormat 6 i := rfl
  have hj : (".jpg" : String).data = '.' :: ['j', 'p', 'g'] := rfl
  rw [hm, hj,
    takeWhile_append_stop _ _ _ _ (pyFormat_all_digits 6 i) (by decide),
    parseNum_pyFormat]

/-- Claim C5: for every invocation of the Metadata Builder with frame count
`N`, the `images` list has length exactly `N`, equal to `info.seq_length`; the
`k`-th entry carries file name `\x7bk+1:06d\x7d.jpg` and id `\x7bk+1:09d\x7d`;
ids and file-name numbers are strictly increasing along the list; and the
`annotations` and `categories` collections are empty. -/
theorem c5_metadata_images_shape (name : String) (rate : ℚ) (N : ℕ) :
    (FormatMp4Dir.create_labels_json name rate N).images.length = N ∧
    (FormatMp4Dir.create_labels_json name rate N).images.length =
      (FormatMp4Dir.create_labels_json name rate N).info.seq_length ∧
    (∀ k, k < N →
      ((FormatMp4Dir.create_labels_json name rate N).images.getD k default).image_id =
          String.mk (pyFormat 9 (k + 1)) ∧
        ((FormatMp4Dir.create_labels_json name rate N).images.getD k default).file_name =
          String.mk (pyFormat 6 (k + 1)) ++ ".jpg") ∧
    (FormatMp4Dir.create_labels_json name rate N).images.Pairwise
      (fun a b => idNum a < idNum b) ∧
    (FormatMp4Dir.create_labels_json name rate N).images.Pairwise
      (fun a b => fileNameNum a < fileNameNum b) ∧
    (FormatMp4Dir.create_labels_json name rate N).annotations = [] ∧
    (FormatMp4Dir.create_labels_json name rate N).categories = [] := by
  refine ⟨?_, ?_, ?_, ?_, ?_, rfl, rfl⟩
  · rw [images_eq, List.length_map, List.length_range']
  · rw [images_eq, List.length_map, List.length_range']; rfl
  · intro k hk
    have hlen2 : k < ((List.range' 1 N).map (fun i =>
        ({ is_labeled := false
           image_id := String.mk (pyFormat 9 i)
           file_name := String.mk (pyFormat 6 i) ++ ".jpg"
           height := 1080
           width := 1920 } : ImageRec))).length := by
      rw [List.length_map, List.length_range']; exact hk
    have hrange : k < (List.range' 1 N).length := by
      rw [List.length_range']; exact hk
    have hget : (FormatMp4Dir.create_labels_json name rate N).images.getD k default =
        { is_labeled := false
          image_id := String.mk (pyFormat 9 (k + 1))
          file_name := String.mk (pyFormat 6 (k + 1)) ++ ".jpg"
          height := 1080
          width := 1920 } := by
      rw [images_eq, List.getD_eq_getElem _ _ hlen2, List.getElem_map,
        List.getElem_range'_1 k hrange, Nat.add_comm 1 k]
    rw [hget]
    exact ⟨rfl, rfl⟩
  · rw [images_eq, List.pairwise_map]
    exact (List.pairwise_lt_range' 1 N).imp
      (fun {a b} hab => by rw [idNum_mk, idNum_mk]; exact hab)
  · rw [images_eq, List.pairwise_map]
    exact (List.pairwise_lt_range' 1 N).imp
      (fun {a b} hab => by rw [fileNameNum_mk, fileNameNum_mk]; exact hab)

/-- Claim C5 witness: the shape theorem instantiated at `N = 3`, reading off
the length and the second image's id. -/
theorem c5_metadata_images_shape_witness :
    (FormatMp4Dir.create_labels_json "v" 25 3).images.length = 3 ∧
      ((FormatMp4Dir.create_labels_json "v" 25 3).images.getD 1 default).image_id =
        String.mk (pyFormat 9 2) := by
  have h := c5_metadata_images_shape "v" 25 3
  exact ⟨h.1, (h.2.2.1 1 (by norm_num)).1⟩

/-- Claim C8: for every frame-rate string `N/D` (nonempty digit numerals, with
`D` parsing to a positive value), the Rate Prober returns the exact rational
quotient `N / D` — true division, not integer division, with no rounding — and
a bare numeral string yields that number directly. -/
theorem c8_rate_prober_division :
    (∀ a b : List Char, a ≠ [] → b ≠ [] →
      (∀ c ∈ a, c.isDigit = true) → (∀ c ∈ b, c.isDigit = true) →
      0 < parseNum b →
      FormatMp4Dir.get_video_fps_parse (a ++ '/' :: b) =
        some ((parseNum a : ℚ) / (parseNum b : ℚ))) ∧
    (∀ cs : List Char, cs ≠ [] → (∀ c ∈ cs, c.isDigit = true) →
      FormatMp4Dir.get_video_fps_parse cs = some ((parseNum cs : ℚ))) := by
  constructor
  · intro a b hane hbne ha hb hpos
    have hstrip : pyStrip (a ++ '/' :: b) = a ++ '/' :: b := by
      apply pyStrip_eq_self
      intro c hc
      rcases List.mem_append.mp hc with h | h
      · exact digit_not_ws (ha c h)
      · rcases List.mem_cons.mp h with rfl | h
        · decide
        · exact digit_not_ws (hb c h)
    have hmem : '/' ∈ a ++ '/' :: b :=
      List.mem_append_right _ (List.mem_cons_self _ _)
    simp only [FormatMp4Dir.get_video_fps_parse, hstrip, if_pos hmem,
      pySplit_append '/' a b (fun c hc => digit_not_slash (ha c hc)),
      pySplit_no_sep '/' b (fun c hc => digit_not_slash (hb c hc)),
      parseFloat_digits a hane ha, parseFloat_digits b hbne hb]
    rw [if_neg (fun h0 => absurd (Nat.cast_eq_zero.mp h0) (by omega))]
  · intro cs hne h
    have hnos : ¬ '/' ∈ cs := fun hmem => digit_not_slash (h '/' hmem) rfl
    simp only [FormatMp4Dir.get_video_fps_parse,
      pyStrip_eq_self cs (fun c hc => digit_not_ws (h c hc)), if_neg hnos]
    exact parseFloat_digits cs hne h

/-- Claim C8 witness: `"30000/1001"` parses to the exact rational
`30000/1001` (≈ 29.97, not the integer quotient 29), and the bare numeral
`"25"` parses to 25. -/
theorem c8_rate_prober_division_witness :
    FormatMp4Dir.get_video_fps_parse ("30000/1001".data) =
        some ((30000 : ℚ) / 1001) ∧
      FormatMp4Dir.get_video_fps_parse ("25".data) = some (25 : ℚ) := by
  have h1 := c8_rate_prober_division.1 ("30000".data) ("1001".data)
    (by decide) (by decide) (by decide) (by decide) (by decide)
  have h2 := c8_rate_prober_division.2 ("25".data) (by decide) (by decide)
  constructor
  · have hsplit : ("30000/1001".data) = "30000".data ++ '/' :: "1001".data := rfl
    have ha : parseNum ("30000".data) = 30000 := rfl
    have hb : parseNum ("1001".data) = 1001 := rfl
    rw [hsplit, h1, ha, hb]
    norm_num
  · have hc : parseNum ("25".data) = 25 := rfl
    rw [h2, hc]
    norm_num

end Dribbling
